import Mathlib

/-
Verification of the Bravebird / ephemeral-agents job platform.

The repository contains the infrastructure (Terraform under `terraform/`,
CDK stacks and constructs), the Next.js frontend (job submission form,
job-detail page, auth context), and documentation.  The Python backend
(FastAPI service, dispatcher and recovery lambdas, local worker) is not
part of the checked sources; where a property depends on it, the relevant
operation is modelled from the specification and the definition says so in
its doc comment.

Conventions of the embedding:
* TypeScript string enumerations for job status are embedded as the
  inductive `Status` together with `statusString`, and the frontend's
  string-list membership tests are translated literally over
  `statusString`.
* JavaScript strings manipulated character-wise (the `SqsWithDlq` queue
  name normalisation) are embedded as `List Char`; strings only compared
  for equality stay `String`.
* Terraform resources and CDK constructs are embedded as records holding
  the configured attributes.
-/

namespace Bravebird

/-! ## Job status (spec §3; frontend `part_002`) -/

/-- The six job states of the data model (spec §3): `queued`, `running`,
`completed`, `failed`, `cancelled`, `timeout`. -/
inductive Status where
  | queued
  | running
  | completed
  | failed
  | cancelled
  | timeout
deriving DecidableEq

/-- The wire representation of a status, as the strings used throughout the
frontend (`part_002`, `part_004`). -/
def statusString : Status → String
  | .queued => "queued"
  | .running => "running"
  | .completed => "completed"
  | .failed => "failed"
  | .cancelled => "cancelled"
  | .timeout => "timeout"

/-- The terminal-status string list of the job-detail page
(`part_002` lines 167, 181 and 245:
`['completed', 'failed', 'cancelled', 'timeout'].includes(job.status)`). -/
def terminalStrings : List String := ["completed", "failed", "cancelled", "timeout"]

/-- Whether a status is terminal, translated from the frontend's
string-list membership test. -/
def isTerminal (s : Status) : Bool := terminalStrings.contains (statusString s)

/-- Rank of a status along the lifecycle: `queued` before `running` before
any terminal state. -/
def statusRank (s : Status) : Nat :=
  if s = .queued then 0 else if s = .running then 1 else 2

/-- Modelled from the spec: the job-store transition DAG of §3/§4.  The
store-side enforcement lives in the FastAPI service and the dispatcher and
recovery lambdas, which are not among the checked sources.  Edges: the
Dispatcher moves `queued → running`; exhausting start attempts marks a
queued job `failed` (§4.2f); an execution handle or the reaper moves
`running` to `completed`, `failed` or `timeout`; explicit cancellation
moves `queued` or `running` to `cancelled` (§5). -/
def allowedTransition : Status → Status → Bool
  | .queued, .running => true
  | .queued, .cancelled => true
  | .queued, .failed => true
  | .running, .completed => true
  | .running, .failed => true
  | .running, .cancelled => true
  | .running, .timeout => true
  | _, _ => false

/-- Events the job-detail client (`part_002`) can apply to the displayed
status: a successful 3-second poll carrying the server's status, a failed
poll (the `catch` swallows the error), a successful cancel request, and a
failed cancel request. -/
inductive ClientEvent where
  | pollOk (server : Status)
  | pollErr
  | cancelOk
  | cancelErr
deriving DecidableEq

/-- One step of the job-detail client (`part_002`).  The polling effect is
unsubscribed once the status is terminal (line 167), and the cancel button
is only rendered while the status is non-terminal (line 245), so no event
applies in a terminal state.  Otherwise a successful poll overwrites the
status with the server's value (line 171), a successful cancel sets
`cancelled` (line 204), and failures leave the status unchanged. -/
def clientStep (s : Status) (e : ClientEvent) : Status :=
  if isTerminal s then s
  else
    match e with
    | .pollOk server => server
    | .pollErr => s
    | .cancelOk => .cancelled
    | .cancelErr => s

/-- Result of the cancel endpoint: `ok` or `InvalidState` (spec §6). -/
inductive CancelResult where
  | ok
  | invalidState
deriving DecidableEq

/-- Modelled from the spec: `cancel(job_id) -> ok | InvalidState`, valid
only from `queued`/`running` (spec §6); the `DELETE /jobs/{id}` handler of
the FastAPI service is not among the checked sources.  Returns the result
and the job's status afterwards. -/
def cancel (s : Status) : CancelResult × Status :=
  if s = .queued ∨ s = .running then (.ok, .cancelled) else (.invalidState, s)

/-! ## Authentication (`part_000`) -/

/-- The two account roles of `part_000`. -/
inductive Role where
  | admin
  | user
deriving DecidableEq

/-- A record of `HOSPITAL_USERS` (`part_000` lines 22–28), including the
stored password. -/
structure HospitalAccount where
  id : String
  name : String
  role : Role
  password : String
  hospital : String
deriving DecidableEq

/-- The `User` value exposed to the application and persisted to
`localStorage` (`part_000` lines 6–11): only `id`, `name`, `role` and
`hospital`; the type has no password field. -/
structure User where
  id : String
  name : String
  role : Role
  hospital : String
deriving DecidableEq

/-- The `HOSPITAL_USERS` map (`part_000` lines 30–52), keyed by
username. -/
def HOSPITAL_USERS (username : String) : Option HospitalAccount :=
  if username = "mercy_admin" then
    some ⟨"mercy_001", "Mercy Admin", .admin, "Mercy@123", "Mercy General"⟩
  else if username = "stjude_admin" then
    some ⟨"stjude_001", "St. Jude Admin", .admin, "StJude@123", "St. Jude Medical"⟩
  else if username = "cityhope_admin" then
    some ⟨"hope_001", "City Hope Admin", .admin, "CityHope@123", "City Hope Clinic"⟩
  else none

/-- The `safeUser` value built on successful login (`part_000` lines
77–82). -/
def safeUser (a : HospitalAccount) : User :=
  { id := a.id, name := a.name, role := a.role, hospital := a.hospital }

/-- The `login` function (`part_000` lines 73–90).  Succeeds exactly when
the username is a key of `HOSPITAL_USERS` and the supplied password equals
the stored one (`account && account.password === password`); on success the
same `safeUser` value is both set as the session user and written to
`localStorage`, so the returned value represents the established
session. -/
def login (username : String) (password : Option String) : Option User :=
  match HOSPITAL_USERS username with
  | some account =>
      if password = some account.password then some (safeUser account) else none
  | none => none

/-! ## Status API client and job-detail page (`part_004`, `part_002`) -/

/-- The job-status payload of `GET /jobs/{id}` (`part_004` lines 24–33).
The status is one of the six wire statuses, embedded as `Status`; the
timestamp and result fields play no role in the checked claims and are
elided. -/
structure JobStatusResponse where
  job_id : String
  url : String
  status : Status
  priority : String
deriving DecidableEq

/-- `getJobStatus` (`part_004` lines 54–60): returns the server's stored
record when the response is ok, and throws `` `Job ${jobId} not found` ``
otherwise.  The server is abstracted as the partial map from job ids to
stored records. -/
def getJobStatus (server : String → Option JobStatusResponse) (jobId : String) :
    Except String JobStatusResponse :=
  match server jobId with
  | some j => .ok j
  | none => .error ("Job " ++ jobId ++ " not found")

/-- The hard-coded demo fallback job of the job-detail page (`part_002`
lines 146–154): `jobId || 'demo'`, the Aetna portal URL, status
`running`, priority `high`. -/
def demoJob (jobId : String) : JobStatusResponse :=
  { job_id := if jobId = "" then "demo" else jobId
  , url := "https://portal.aetna.com/eligibility"
  , status := .running
  , priority := "high" }

/-- The initial load of the job-detail page (`part_002` lines 156–162):
`getJobStatus(jobId).then(setJob).catch(() => setJob(demoJob))` — the
stored record on success, the demo fallback on failure. -/
def initialLoad (server : String → Option JobStatusResponse) (jobId : String) :
    JobStatusResponse :=
  match getJobStatus server jobId with
  | .ok j => j
  | .error _ => demoJob jobId

/-- The claim of spec §6/§7 restricted to the job-detail surface: whatever
the page displays for a job id is the record durably stored under that
id. -/
def displayedOnlyStoredJobs : Prop :=
  ∀ (server : String → Option JobStatusResponse) (jobId : String),
    server jobId = some (initialLoad server jobId)

/-- A store holding no job at all. -/
def emptyServer : String → Option JobStatusResponse := fun _ => none

/-! ## Submission form bounds and timeout configuration
(`frontend/src/app/verify/page.tsx`, `part_011`, `part_012`) -/

/-- The `min` attribute of the timeout input on the submission form
(`verify/page.tsx` line 122). -/
def timeoutInputMin : Nat := 60

/-- The `max` attribute of the timeout input on the submission form
(`verify/page.tsx` line 123). -/
def timeoutInputMax : Nat := 3600

/-- Whether the submission form accepts a timeout value: the HTML number
input validates `min ≤ t ≤ max`; the accepted value is submitted as
`timeout_seconds` unchanged (`verify/page.tsx` lines 25–31). -/
def formAcceptsTimeout (t : Nat) : Bool :=
  decide (timeoutInputMin ≤ t) && decide (t ≤ timeoutInputMax)

/-- The Terraform variable `job_timeout_seconds`, "Maximum job execution
time", default 600 (`part_011` lines 25–29); the README documents the
submission field as `timeout_seconds ... // max 600`. -/
def job_timeout_seconds : Nat := 600

/-- The agent container's `stopTimeout = min(var.job_timeout_seconds, 120)`
(`part_012` line 282). -/
def agentStopTimeout : Nat := min job_timeout_seconds 120

/-! ## Terraform SQS queues (`terraform/sqs.tf`) -/

/-- A `redrive_policy` block: dead-letter target and `maxReceiveCount`. -/
structure RedrivePolicy where
  deadLetterTarget : String
  maxReceiveCount : Nat
deriving DecidableEq

/-- An `aws_sqs_queue` resource with the attributes set in
`terraform/sqs.tf`; unset attributes are `none`. -/
structure SqsQueue where
  name : String
  fifoQueue : Bool
  contentBasedDeduplication : Bool
  visibilityTimeoutSeconds : Option Nat
  messageRetentionSeconds : Nat
  redrivePolicy : Option RedrivePolicy
deriving DecidableEq

/-- `aws_sqs_queue.dlq` (`sqs.tf` lines 4–9). -/
def tf_dlq : SqsQueue :=
  { name := "jobs-dlq.fifo", fifoQueue := true, contentBasedDeduplication := true
  , visibilityTimeoutSeconds := none, messageRetentionSeconds := 1209600
  , redrivePolicy := none }

/-- `aws_sqs_queue.jobs_high` (`sqs.tf` lines 12–23). -/
def tf_jobs_high : SqsQueue :=
  { name := "jobs-high.fifo", fifoQueue := true, contentBasedDeduplication := true
  , visibilityTimeoutSeconds := some 300, messageRetentionSeconds := 86400
  , redrivePolicy := some ⟨"jobs-dlq.fifo", 3⟩ }

/-- `aws_sqs_queue.jobs_normal` (`sqs.tf` lines 26–37). -/
def tf_jobs_normal : SqsQueue :=
  { name := "jobs-normal.fifo", fifoQueue := true, contentBasedDeduplication := true
  , visibilityTimeoutSeconds := some 300, messageRetentionSeconds := 86400
  , redrivePolicy := some ⟨"jobs-dlq.fifo", 3⟩ }

/-- `aws_sqs_queue.jobs_low` (`sqs.tf` lines 40–51). -/
def tf_jobs_low : SqsQueue :=
  { name := "jobs-low.fifo", fifoQueue := true, contentBasedDeduplication := true
  , visibilityTimeoutSeconds := some 300, messageRetentionSeconds := 86400
  , redrivePolicy := some ⟨"jobs-dlq.fifo", 3⟩ }

/-- The three priority tiers. -/
inductive Tier where
  | high
  | normal
  | low
deriving DecidableEq

/-- The Terraform job queue of each priority tier. -/
def tfQueueFor : Tier → SqsQueue
  | .high => tf_jobs_high
  | .normal => tf_jobs_normal
  | .low => tf_jobs_low

/-- The list of Terraform priority-tier job queues, in declaration
order. -/
def tfJobQueues : List SqsQueue := [tf_jobs_high, tf_jobs_normal, tf_jobs_low]

/-- Redrive semantics of a configured queue, as documented for the
`redrive_policy` attribute: a delivery whose receive count exceeds
`maxReceiveCount` moves the message to the dead-letter target instead of
delivering it; without a redrive policy nothing is moved. -/
def routesToDlq (q : SqsQueue) (receiveCount : Nat) : Bool :=
  match q.redrivePolicy with
  | some r => decide (r.maxReceiveCount < receiveCount)
  | none => false

/-! ## CDK `SqsWithDlq` construct (`part_007`)

JavaScript strings manipulated character-wise are embedded as `List Char`. -/

/-- The characters of `".fifo"`. -/
def fifoSuffix : List Char := ['.', 'f', 'i', 'f', 'o']

/-- The characters of `"-dlq"`. -/
def dlqMarker : List Char := ['-', 'd', 'l', 'q']

/-- `s.substring(0, s.length - 5)` for the five-character `".fifo"`
suffix (`part_007` line 26). -/
def stripFifo (s : List Char) : List Char := s.take (s.length - 5)

/-- The `baseName` computation of the construct (`part_007` lines 25–27):
strip a trailing `".fifo"` if present. -/
def sqsFifoBaseName (queueName : List Char) : List Char :=
  if fifoSuffix.isSuffixOf queueName then stripFifo queueName else queueName

/-- The queue-name pair computed by the construct (`part_007` lines
21–34): for FIFO queues `(baseName + ".fifo", baseName + "-dlq.fifo")`,
otherwise `(name, name + "-dlq")`. -/
def sqsWithDlqNames (queueName : List Char) (fifo : Bool) : List Char × List Char :=
  if fifo then
    (sqsFifoBaseName queueName ++ fifoSuffix,
     sqsFifoBaseName queueName ++ dlqMarker ++ fifoSuffix)
  else
    (queueName, queueName ++ dlqMarker)

/-- The pair of queues created by one `SqsWithDlq` construct (`part_007`
lines 36–53): the main queue with its dead-letter queue, both FIFO iff
`fifo`, content-based deduplication enabled iff FIFO, and
`maxReceiveCount: 3` on the main queue's dead-letter configuration. -/
structure CdkQueuePair where
  queueName : List Char
  dlqName : List Char
  fifo : Bool
  contentBasedDeduplication : Bool
  maxReceiveCount : Nat
  visibilityTimeoutMinutes : Nat
deriving DecidableEq

/-- Construct a `SqsWithDlq` (`part_007`): names normalised as above,
dedup enabled for FIFO queues, `maxReceiveCount` fixed at 3. -/
def mkSqsWithDlq (queueName : List Char) (fifo : Bool) (visMinutes : Nat) :
    CdkQueuePair :=
  { queueName := (sqsWithDlqNames queueName fifo).1
  , dlqName := (sqsWithDlqNames queueName fifo).2
  , fifo := fifo
  , contentBasedDeduplication := fifo
  , maxReceiveCount := 3
  , visibilityTimeoutMinutes := visMinutes }

/-- `CuaQueueHigh` (`part_009` lines 30–34). -/
def cuaQueueHigh : CdkQueuePair := mkSqsWithDlq "bravebird-cua-high".toList true 20

/-- `CuaQueueNormal` (`part_009` lines 36–40). -/
def cuaQueueNormal : CdkQueuePair := mkSqsWithDlq "bravebird-cua-normal".toList true 20

/-- `CuaQueueLow` (`part_009` lines 42–46). -/
def cuaQueueLow : CdkQueuePair := mkSqsWithDlq "bravebird-cua-low".toList true 20

/-- The CDK queue pair of each priority tier. -/
def cdkQueueFor : Tier → CdkQueuePair
  | .high => cuaQueueHigh
  | .normal => cuaQueueNormal
  | .low => cuaQueueLow

/-! ## Monitoring stack (`part_010`) -/

/-- The dead-letter queues watched by a CloudWatch alarm with the alerts
topic as alarm action: the monitoring stack creates a single `CuaDlqAlarm`
on `cuaQueueHigh.dlq` (`part_010` lines 142–151). -/
def alarmedDlqNames : List (List Char) := [cuaQueueHigh.dlqName]

/-- The claim of spec §4.1 at the alerting layer: every tier's dead-letter
queue is covered by an operator-visible alarm. -/
def dlqAlertCoversAllTiers : Prop :=
  ∀ t : Tier, (cdkQueueFor t).dlqName ∈ alarmedDlqNames

/-! ## Dispatcher event-source wiring (`part_009` lines 93–97,
`terraform/lambda.tf` lines 100–117) -/

/-- An event source mapping from a priority-tier queue to the dispatcher
function. -/
structure EventSourceMapping where
  source : Tier
  batchSize : Nat
deriving DecidableEq

/-- The dispatcher's event sources: both the CDK stack (`part_009` lines
93–97) and Terraform (`lambda.tf` lines 100–117) subscribe the single
dispatcher function to the high, normal and low queues through three
separate mappings with batch size 1.  (The CDK stack additionally maps the
voice queue, which is not a priority tier.) -/
def dispatcherEventSources : List EventSourceMapping :=
  [⟨.high, 1⟩, ⟨.normal, 1⟩, ⟨.low, 1⟩]

/-- A snapshot of the available (visible, undelivered) messages of the
three tier queues. -/
structure QueueState where
  high : List String
  normal : List String
  low : List String

/-- The available messages of a tier. -/
def tierMessages (q : QueueState) : Tier → List String
  | .high => q.high
  | .normal => q.normal
  | .low => q.low

/-- The tiers the dispatcher is subscribed to. -/
def mappedTiers : List Tier := dispatcherEventSources.map (·.source)

/-- Whether a dispatch of tier `t` is a possible next step in state `q`:
each event source mapping polls its own queue independently of the others,
so any mapped tier with an available message can be the one delivered
next. -/
def canDispatch (q : QueueState) (t : Tier) : Bool :=
  mappedTiers.contains t && !(tierMessages q t).isEmpty

/-- The strict-priority claim of spec §4.2/§8 over this wiring: whenever a
high-priority message is available, no normal- or low-priority dispatch is
a possible next step. -/
def strictPriorityHolds : Prop :=
  ∀ q : QueueState, q.high ≠ [] →
    canDispatch q .normal = false ∧ canDispatch q .low = false

/-- A state with one high-priority and one low-priority message
available. -/
def bothAvailableState : QueueState :=
  { high := ["job-h"], normal := [], low := ["job-l"] }

/-! ## Deduplicating FIFO channel (spec §4.1; `sqs.tf`, `part_007`) -/

/-- Modelled from the spec: one priority channel with the content-based
deduplication the configuration enables (`content_based_deduplication =
true` in `sqs.tf`, `contentBasedDeduplication: true` in `part_007`).  The
enqueue path of the FastAPI service is not among the checked sources; per
spec §4.1 the message body is the `job_id` envelope, so the SQS
content-based deduplication id is determined by the `job_id`.  `msgs` are
the queued bodies in order; `recentDedupIds` are the deduplication ids
seen within the current deduplication window. -/
structure FifoChannel where
  msgs : List String
  recentDedupIds : List String
deriving DecidableEq

/-- Enqueue under SQS deduplication semantics: with content-based
deduplication enabled, a body whose deduplication id was already seen
within the window is accepted but not enqueued again (a no-op); otherwise
the body is appended and its id recorded. -/
def enqueueDedup (cbd : Bool) (q : FifoChannel) (body : String) : FifoChannel :=
  if cbd && q.recentDedupIds.contains body then q
  else { msgs := q.msgs ++ [body], recentDedupIds := body :: q.recentDedupIds }

/-- The claimed naming idempotence of the `SqsWithDlq` construct: for
every base name `x`, constructing with `x` or with `x.fifo` yields the
same pair, the main queue being named `x.fifo`. -/
def fifoNamingIdempotent : Prop :=
  ∀ x : List Char,
    sqsWithDlqNames x true = sqsWithDlqNames (x ++ fifoSuffix) true
    ∧ (sqsWithDlqNames x true).1 = x ++ fifoSuffix

/-! ## Theorems -/

/-- Dropping a trailing `".fifo"` from a name that ends in it returns the
stem. -/
theorem stripFifo_append (l : List Char) : stripFifo (l ++ fifoSuffix) = l := by
  simp [stripFifo, fifoSuffix]

/-- `".fifo"` is a suffix of anything it is appended to. -/
theorem isSuffixOf_append_fifo (l : List Char) :
    fifoSuffix.isSuffixOf (l ++ fifoSuffix) = true := by
  rw [List.isSuffixOf_iff_suffix]
  exact List.suffix_append l fifoSuffix

/-- A name ending in the `"-dlq"` marker does not end in `".fifo"`. -/
theorem fifo_not_suffix_of_dlq (l : List Char) :
    fifoSuffix.isSuffixOf (l ++ dlqMarker) = false := by
  rw [Bool.eq_false_iff]
  intro hs
  rw [List.isSuffixOf_iff_suffix] at hs
  obtain ⟨t, ht⟩ := hs
  have hlast := congrArg List.getLast? ht
  simp [fifoSuffix, dlqMarker] at hlast

/-- Claim C2: the status transitions of the job store move only forward
along the DAG `queued → running → {completed, failed, cancelled, timeout}`
(with cancellation and start-failure edges from `queued`), and once a job
is terminal no operation — store transition, polling refresh or
cancellation in the job-detail client — moves it to another state. -/
theorem status_forward_terminal_absorbing (s t : Status) (e : ClientEvent) :
    (allowedTransition s t = true → statusRank s < statusRank t)
    ∧ (isTerminal s = true → allowedTransition s t = false ∧ clientStep s e = s) := by
  constructor
  · cases s <;> cases t <;> decide
  · intro h
    refine ⟨?_, ?_⟩
    · cases s <;> cases t <;> revert h <;> decide
    · simp [clientStep, h]

/-- Witness for `status_forward_terminal_absorbing` at `running →
completed` and at the terminal state `completed`. -/
theorem status_forward_terminal_absorbing_witness :
    statusRank Status.running < statusRank Status.completed
    ∧ allowedTransition Status.completed Status.running = false
    ∧ clientStep Status.completed ClientEvent.cancelOk = Status.completed :=
  ⟨(status_forward_terminal_absorbing .running .completed .cancelOk).1 (by decide),
   ((status_forward_terminal_absorbing .completed .running .cancelOk).2 (by decide)).1,
   ((status_forward_terminal_absorbing .completed .running .cancelOk).2 (by decide)).2⟩

/-- Claim C6: `cancel` succeeds exactly from `queued` or `running` (the
job becoming `cancelled`), returns `InvalidState` from every other state
leaving the job unchanged; and the job-detail client's cancel-button guard
(non-terminal status) coincides with that validity condition. -/
theorem cancel_only_from_queued_or_running (s : Status) :
    ((cancel s).1 = .ok ↔ (s = .queued ∨ s = .running))
    ∧ ((cancel s).1 = .ok → (cancel s).2 = .cancelled)
    ∧ ((cancel s).1 = .invalidState → (cancel s).2 = s)
    ∧ (isTerminal s = false ↔ (s = .queued ∨ s = .running)) := by
  cases s <;> refine ⟨?_, ?_, ?_, ?_⟩ <;> decide

/-- Witness for `cancel_only_from_queued_or_running` at `queued` and at
the terminal state `completed`. -/
theorem cancel_only_from_queued_or_running_witness :
    (cancel Status.queued).1 = CancelResult.ok
    ∧ (cancel Status.queued).2 = Status.cancelled
    ∧ (cancel Status.completed).2 = Status.completed :=
  ⟨(cancel_only_from_queued_or_running Status.queued).1.mpr (Or.inl rfl),
   (cancel_only_from_queued_or_running Status.queued).2.1 (by decide),
   (cancel_only_from_queued_or_running Status.completed).2.2.1 (by decide)⟩

/-- Claim C9: `login` succeeds and establishes a session exactly when the
username is a key of `HOSPITAL_USERS` and the supplied password equals the
stored one, the session value being `safeUser` of the account — a value
with only the `id`, `name`, `role` and `hospital` fields, independent of
the stored password. -/
theorem login_exposes_only_safe_fields (u : String) (p : Option String) (r : User) :
    (login u p = some r
      ↔ ∃ a, HOSPITAL_USERS u = some a ∧ p = some a.password ∧ r = safeUser a)
    ∧ (∀ (a : HospitalAccount) (pw : String),
        safeUser { a with password := pw } = safeUser a) := by
  constructor
  · cases hU : HOSPITAL_USERS u with
    | none => simp [login, hU]
    | some a =>
        by_cases hp : p = some a.password
        · simp [login, hU, hp, eq_comm]
        · simp [login, hU, hp]
  · intro a pw
    rfl

/-- Witness for `login_exposes_only_safe_fields`: a successful login of
`mercy_admin` yields exactly the password-free user record. -/
theorem login_exposes_only_safe_fields_witness :
    login "mercy_admin" (some "Mercy@123")
      = some ⟨"mercy_001", "Mercy Admin", Role.admin, "Mercy General"⟩ :=
  (login_exposes_only_safe_fields "mercy_admin" (some "Mercy@123")
      ⟨"mercy_001", "Mercy Admin", .admin, "Mercy General"⟩).1.mpr
    ⟨⟨"mercy_001", "Mercy Admin", .admin, "Mercy@123", "Mercy General"⟩,
     by decide, rfl, rfl⟩

/-- Claim C5 counterexample: the job-detail page does not only show
durably stored state — for a job id the store cannot read (`emptyServer`,
`"job-x"`), the page displays the hard-coded demo job instead of
surfacing NotFound. -/
theorem job_detail_fabricates_demo_job : ¬ displayedOnlyStoredJobs := by
  intro h
  have hx := h emptyServer "job-x"
  simp [emptyServer] at hx

/-- Claim C5 amended: `getJobStatus` itself returns the stored record or
the not-found error and never fabricates; but on failure the job-detail
page substitutes the hard-coded demo job (status `running`), so the UI can
display fabricated state for a job that cannot be read. -/
theorem get_status_stored_or_error
    (server : String → Option JobStatusResponse) (jobId : String) :
    (∀ j, server jobId = some j → getJobStatus server jobId = .ok j)
    ∧ (server jobId = none →
        getJobStatus server jobId = .error ("Job " ++ jobId ++ " not found")
        ∧ initialLoad server jobId = demoJob jobId) := by
  constructor
  · intro j hj
    simp [getJobStatus, hj]
  · intro hn
    simp [getJobStatus, initialLoad, hn]

/-- Witness for `get_status_stored_or_error` on the empty store. -/
theorem get_status_stored_or_error_witness :
    getJobStatus emptyServer "job-x" = .error ("Job " ++ "job-x" ++ " not found")
    ∧ initialLoad emptyServer "job-x" = demoJob "job-x" :=
  (get_status_stored_or_error emptyServer "job-x").2 rfl

/-- Claim C4: the submission form accepts `timeout_seconds = 3600`, six
times the configured system maximum `job_timeout_seconds = 600` that the
README documents as the cap; the container stop timeout is the separate
bound `min(600, 120) = 120`. -/
theorem timeout_form_exceeds_system_max :
    formAcceptsTimeout 3600 = true
    ∧ job_timeout_seconds = 600
    ∧ job_timeout_seconds < timeoutInputMax
    ∧ agentStopTimeout = 120 := by
  decide

/-- Claim C1 counterexample: strict priority fails for the deployed
wiring — with a high- and a low-priority message both available,
dispatching the low one is a possible next step, because each queue feeds
the dispatcher through its own independent event source mapping. -/
theorem dispatch_no_strict_priority : ¬ strictPriorityHolds := by
  intro h
  have hb := h bothAvailableState (by decide)
  have hl : canDispatch bothAvailableState .low = true := by decide
  rw [hb.2] at hl
  exact Bool.noConfusion hl

/-- Claim C1 amended: every priority tier is subscribed to the dispatcher
through its own event source mapping with batch size 1, and any tier with
an available message can be dispatched next, independently of the other
tiers' availability — the wiring enforces no cross-tier priority. -/
theorem dispatch_independent_tiers (q : QueueState) (t : Tier)
    (h : tierMessages q t ≠ []) :
    EventSourceMapping.mk t 1 ∈ dispatcherEventSources ∧ canDispatch q t = true := by
  constructor
  · cases t <;> decide
  · have he : (tierMessages q t).isEmpty = false := by
      cases hm : tierMessages q t with
      | nil => exact absurd hm h
      | cons a l => rfl
    simp [canDispatch, he]
    cases t <;> decide

/-- Witness for `dispatch_independent_tiers`: in the state with a high and
a low message available, the low tier is dispatchable. -/
theorem dispatch_independent_tiers_witness :
    EventSourceMapping.mk Tier.low 1 ∈ dispatcherEventSources
    ∧ canDispatch bothAvailableState Tier.low = true :=
  dispatch_independent_tiers bothAvailableState .low (by decide)

/-- Claim C3 counterexample: the operator-visible alert condition is not
raised for dead-lettered messages of every tier — the monitoring stack
alarms only on the high tier's dead-letter queue, so the normal tier's
dead-letter queue is not covered. -/
theorem dlq_alert_not_all_tiers : ¬ dlqAlertCoversAllTiers := by
  intro h
  exact absurd (h .normal) (by decide)

/-- Claim C3 amended: every tier's queue redrives to a dead-letter channel
with `maxReceiveCount = 3` (a delivery past 3 attempts is moved, never
silently dropped), but the operator alarm covers exactly the high tier's
dead-letter queue. -/
theorem dlq_routing_and_alert_scope (t : Tier) (n : Nat) (h : 3 < n) :
    (tfQueueFor t).redrivePolicy = some ⟨"jobs-dlq.fifo", 3⟩
    ∧ routesToDlq (tfQueueFor t) n = true
    ∧ (cdkQueueFor t).maxReceiveCount = 3
    ∧ alarmedDlqNames = [cuaQueueHigh.dlqName]
    ∧ ((cdkQueueFor t).dlqName ∈ alarmedDlqNames ↔ t = .high) := by
  refine ⟨?_, ?_, ?_, rfl, ?_⟩
  · cases t <;> rfl
  · cases t <;> simp [routesToDlq, tfQueueFor, tf_jobs_high, tf_jobs_normal,
      tf_jobs_low, h]
  · cases t <;> rfl
  · cases t <;> decide

/-- Witness for `dlq_routing_and_alert_scope`: the normal tier's fourth
delivery attempt routes to the dead-letter queue, which no alarm covers. -/
theorem dlq_routing_and_alert_scope_witness :
    routesToDlq (tfQueueFor Tier.normal) 4 = true
    ∧ ((cdkQueueFor Tier.normal).dlqName ∈ alarmedDlqNames ↔ Tier.normal = Tier.high) :=
  ⟨(dlq_routing_and_alert_scope .normal 4 (by decide)).2.1,
   (dlq_routing_and_alert_scope .normal 4 (by decide)).2.2.2.2⟩

/-- Claim C7: the priority-queue component is exactly three channels, one
per tier, with pairwise distinct names, each FIFO (order-preserving), each
with a visibility window of 300 seconds suppressing redelivery, and each
with a dead-letter path; the CDK deployment likewise gives each tier a
FIFO pair with `maxReceiveCount = 3` and a 20-minute visibility
timeout. -/
theorem three_fifo_priority_channels (t : Tier) :
    tfJobQueues.length = 3
    ∧ tf_jobs_high.name ≠ tf_jobs_normal.name
    ∧ tf_jobs_high.name ≠ tf_jobs_low.name
    ∧ tf_jobs_normal.name ≠ tf_jobs_low.name
    ∧ tfQueueFor t ∈ tfJobQueues
    ∧ (tfQueueFor t).fifoQueue = true
    ∧ (tfQueueFor t).visibilityTimeoutSeconds = some 300
    ∧ (tfQueueFor t).redrivePolicy.isSome = true
    ∧ (cdkQueueFor t).fifo = true
    ∧ (cdkQueueFor t).maxReceiveCount = 3
    ∧ (cdkQueueFor t).visibilityTimeoutMinutes = 20 := by
  cases t <;> refine ⟨?_, ?_, ?_, ?_, ?_, ?_, ?_, ?_, ?_, ?_, ?_⟩ <;> decide

/-- Witness for `three_fifo_priority_channels` at the high tier. -/
theorem three_fifo_priority_channels_witness :
    tfJobQueues.length = 3 ∧ (tfQueueFor Tier.high).fifoQueue = true :=
  ⟨(three_fifo_priority_channels .high).1,
   (three_fifo_priority_channels .high).2.2.2.2.2.1⟩

/-- Claim C8: with content-based deduplication enabled — as the
configuration does on every tier — re-enqueuing the same body within the
deduplication window is a no-op, and starting from a channel without that
body the channel holds at most one copy of it after repeated enqueues. -/
theorem enqueue_dedup_idempotent (q : FifoChannel) (b : String) :
    enqueueDedup true (enqueueDedup true q b) b = enqueueDedup true q b
    ∧ (q.msgs.count b = 0 →
        (enqueueDedup true (enqueueDedup true q b) b).msgs.count b ≤ 1)
    ∧ tf_jobs_high.contentBasedDeduplication = true
    ∧ tf_jobs_normal.contentBasedDeduplication = true
    ∧ tf_jobs_low.contentBasedDeduplication = true
    ∧ cuaQueueHigh.contentBasedDeduplication = true
    ∧ cuaQueueNormal.contentBasedDeduplication = true
    ∧ cuaQueueLow.contentBasedDeduplication = true := by
  refine ⟨?_, ?_, rfl, rfl, rfl, rfl, rfl, rfl⟩
  · by_cases hc : b ∈ q.recentDedupIds
    · simp [enqueueDedup, hc]
    · simp [enqueueDedup, hc]
  · intro hq
    by_cases hc : b ∈ q.recentDedupIds
    · simp [enqueueDedup, hc, hq]
    · simp [enqueueDedup, hc, List.count_append, hq]

/-- Witness for `enqueue_dedup_idempotent` on the empty channel. -/
theorem enqueue_dedup_idempotent_witness :
    enqueueDedup true (enqueueDedup true ⟨[], []⟩ "job-1") "job-1"
      = enqueueDedup true ⟨[], []⟩ "job-1"
    ∧ (enqueueDedup true (enqueueDedup true ⟨[], []⟩ "job-1") "job-1").msgs.count "job-1" ≤ 1 :=
  ⟨(enqueue_dedup_idempotent ⟨[], []⟩ "job-1").1,
   (enqueue_dedup_idempotent ⟨[], []⟩ "job-1").2.1 rfl⟩

/-- Claim C10 counterexample: the naming normalisation is not idempotent
for every base name — for `x = "jobs.fifo"`, constructing with `x` yields
the main queue `"jobs.fifo"`, not `x + ".fifo" = "jobs.fifo.fifo"`, and
constructing with `x + ".fifo"` yields a different pair. -/
theorem fifo_naming_not_idempotent_on_fifo_names : ¬ fifoNamingIdempotent := by
  intro h
  have hx := h "jobs.fifo".toList
  revert hx
  decide

/-- Claim C10 amended: for every base name that does not itself end in
`".fifo"`, constructing with the name or with the name plus `".fifo"`
yields the same pair — main queue `x.fifo`, dead-letter queue
`x-dlq.fifo` — and in both names the `".fifo"` suffix occurs exactly once
(stripping it leaves a name not ending in `".fifo"`). -/
theorem fifo_naming_idempotent_on_plain_names (x : List Char)
    (hx : fifoSuffix.isSuffixOf x = false) :
    sqsWithDlqNames x true = (x ++ fifoSuffix, x ++ dlqMarker ++ fifoSuffix)
    ∧ sqsWithDlqNames (x ++ fifoSuffix) true = sqsWithDlqNames x true
    ∧ fifoSuffix.isSuffixOf (sqsWithDlqNames x true).1 = true
    ∧ fifoSuffix.isSuffixOf (stripFifo (sqsWithDlqNames x true).1) = false
    ∧ fifoSuffix.isSuffixOf (sqsWithDlqNames x true).2 = true
    ∧ fifoSuffix.isSuffixOf (stripFifo (sqsWithDlqNames x true).2) = false := by
  have hb : sqsFifoBaseName x = x := by
    simp [sqsFifoBaseName, hx]
  have hb2 : sqsFifoBaseName (x ++ fifoSuffix) = x := by
    simp [sqsFifoBaseName, isSuffixOf_append_fifo, stripFifo_append]
  have heq : sqsWithDlqNames x true = (x ++ fifoSuffix, x ++ dlqMarker ++ fifoSuffix) := by
    simp [sqsWithDlqNames, hb]
  refine ⟨heq, ?_, ?_, ?_, ?_, ?_⟩
  · rw [heq]
    simp [sqsWithDlqNames, hb2]
  · rw [heq]
    exact isSuffixOf_append_fifo x
  · rw [heq]
    simpa [stripFifo_append] using hx
  · rw [heq]
    exact isSuffixOf_append_fifo (x ++ dlqMarker)
  · rw [heq]
    show fifoSuffix.isSuffixOf (stripFifo ((x ++ dlqMarker) ++ fifoSuffix)) = false
    rw [stripFifo_append (x ++ dlqMarker)]
    exact fifo_not_suffix_of_dlq x

/-- Witness for `fifo_naming_idempotent_on_plain_names` at the plain base
name `"jobs"`. -/
theorem fifo_naming_idempotent_on_plain_names_witness :
    sqsWithDlqNames "jobs".toList true
      = ("jobs".toList ++ fifoSuffix, "jobs".toList ++ dlqMarker ++ fifoSuffix) :=
  (fifo_naming_idempotent_on_plain_names "jobs".toList (by decide)).1

end Bravebird
